import Mathlib

/-!
Verification of the ControllerGUI motion-safety layer.

This file gives a shallow embedding of the device-communication and
motion-safety core of the ControllerGUI repository (ControllerGUI.py,
ControllerPolling.py, communications.py) and proves or refutes the frozen
claims about it.  Engineering-unit values (degrees, degrees/second) are
modelled as rationals; device pulses as integers; Python strings as Lean
strings; a Python call that may raise is modelled with an explicit
outcome type.
-/

namespace ControllerGUI

/-- Per-axis calibration record, one entry of the AXIS_UNITS dictionary
loaded from controller_config.ini (ControllerGUI.py lines 78-91).  The
dictionary keys are min, max, pulses, degrees, scaling, gearbox. -/
structure AxisUnits where
  minDeg : ℚ
  maxDeg : ℚ
  pulses : ℚ
  degrees : ℚ
  scaling : ℚ
  gearbox : ℚ
deriving DecidableEq

/-- The key set of one AXIS_UNITS entry (ControllerGUI.py lines 84-91). -/
def axisUnitsKeys : List String :=
  ["min", "max", "pulses", "degrees", "scaling", "gearbox"]

/-- AXIS_LETTERS (ControllerGUI.py line 167). -/
def AXIS_LETTERS : List String := ["A", "B", "C", "D", "E", "F", "G", "H"]

/-- AXIS_LETTERS[servo_num - 1]. -/
def axisLetter (servo : ℕ) : String := AXIS_LETTERS.getD (servo - 1) "?"

/-- Python round-half-to-even on an exact rational, as used by the source
through int(round(x)) and round(x, 1). -/
def roundHalfEven (q : ℚ) : ℤ :=
  if q - ⌊q⌋ < 1 / 2 then ⌊q⌋
  else if 1 / 2 < q - ⌊q⌋ then ⌊q⌋ + 1
  else if ⌊q⌋ % 2 = 0 then ⌊q⌋ else ⌊q⌋ + 1

/-- roundHalfEven is the identity on integers. -/
theorem roundHalfEven_intCast (n : ℤ) : roundHalfEven (n : ℚ) = n := by
  unfold roundHalfEven
  rw [Int.floor_intCast]
  norm_num

/-- round(float(value), 1): round to one decimal place
(ControllerGUI.py line 450). -/
def round1 (q : ℚ) : ℚ := (roundHalfEven (q * 10) : ℚ) / 10

/-- round1 is the identity on integers. -/
theorem round1_intCast (n : ℤ) : round1 (n : ℚ) = n := by
  unfold round1
  have h : ((n : ℚ) * 10) = ((n * 10 : ℤ) : ℚ) := by push_cast; ring
  rw [h, roundHalfEven_intCast]
  push_cast
  field_simp

/-!
### SafetyInterlock (POSITION_POLL soft-limit handler)

ControllerGUI.py lines 760-790: on a decoded position, if the position is
outside the calibrated bounds and the axis is not already flagged, a stop
command for the axis is sent (when a transport is available) and the
limit-tripped flag is set; otherwise, if the flag is set and the position
is back inside the inclusive bounds, the flag is cleared.
-/

/-- Result of one soft-limit evaluation: new flag value, stop commands
sent to the transport, and whether the recovery transition fired. -/
structure SafetyOut where
  tripped : Bool
  stopsSent : List String
  recovered : Bool
deriving DecidableEq

/-- One step of the POSITION_POLL soft-limit handler
(ControllerGUI.py lines 761-790), for a decoded position pos. -/
def safetyStep (axis : String) (minV maxV : ℚ) (commLive : Bool)
    (tripped : Bool) (pos : ℚ) : SafetyOut :=
  if (pos < minV ∨ maxV < pos) ∧ tripped = false then
    { tripped := true
      stopsSent := if commLive then ["ST" ++ axis] else []
      recovered := false }
  else if tripped = true ∧ minV ≤ pos ∧ pos ≤ maxV then
    { tripped := false, stopsSent := [], recovered := true }
  else
    { tripped := tripped, stopsSent := [], recovered := false }

/-- Fold of safetyStep over a sequence of decoded positions, returning
the final flag, the total number of stop commands sent, and the total
number of recovery transitions. -/
def safetyRun (axis : String) (minV maxV : ℚ) (commLive : Bool) :
    Bool → List ℚ → Bool × ℕ × ℕ
  | tripped, [] => (tripped, 0, 0)
  | tripped, p :: ps =>
    let o := safetyStep axis minV maxV commLive tripped p
    let r := safetyRun axis minV maxV commLive o.tripped ps
    (r.1, o.stopsSent.length + r.2.1, (if o.recovered then 1 else 0) + r.2.2)

/-- C1: the safety interlock is edge-triggered with hysteresis: an
out-of-range decoded position with the flag clear sends exactly one stop
command and sets the flag; an out-of-range position with the flag set
sends nothing; an in-range position (inclusive bounds) with the flag set
clears the flag exactly once (and an in-range position with the flag
clear fires no recovery); the sequence [10, 185, 185, 90] against
[0, 180] produces exactly one stop command and one recovery. -/
theorem C1_safety_interlock_edge_triggered (axis : String) (minV maxV pos : ℚ) :
    ((pos < minV ∨ maxV < pos) →
      safetyStep axis minV maxV true false pos =
        { tripped := true, stopsSent := ["ST" ++ axis], recovered := false })
  ∧ ((pos < minV ∨ maxV < pos) →
      safetyStep axis minV maxV true true pos =
        { tripped := true, stopsSent := [], recovered := false })
  ∧ (minV ≤ pos → pos ≤ maxV →
      safetyStep axis minV maxV true true pos =
        { tripped := false, stopsSent := [], recovered := true })
  ∧ (minV ≤ pos → pos ≤ maxV →
      safetyStep axis minV maxV true false pos =
        { tripped := false, stopsSent := [], recovered := false })
  ∧ safetyRun "A" 0 180 true false [10, 185, 185, 90] = (false, 1, 1) := by
  refine ⟨?_, ?_, ?_, ?_, by decide⟩
  · intro h
    rcases h with h | h <;> simp [safetyStep, h]
  · intro h
    rcases h with h | h <;> simp [safetyStep, not_le.mpr h]
  · intro hm hM
    simp [safetyStep, hm, hM]
  · intro hm hM
    simp [safetyStep, not_lt.mpr hm, not_lt.mpr hM]

/-- Witness for C1 at concrete inputs: axis A, bounds [0,180], positions
185 (trip), 185 again while tripped (no stop), and 90 (recovery). -/
theorem C1_safety_interlock_edge_triggered_witness :
    safetyStep "A" 0 180 true false 185 =
      { tripped := true, stopsSent := ["ST" ++ "A"], recovered := false }
  ∧ safetyStep "A" 0 180 true true 185 =
      { tripped := true, stopsSent := [], recovered := false }
  ∧ safetyStep "A" 0 180 true true 90 =
      { tripped := false, stopsSent := [], recovered := true } :=
  ⟨(C1_safety_interlock_edge_triggered "A" 0 180 185).1 (Or.inr (by decide)),
   (C1_safety_interlock_edge_triggered "A" 0 180 185).2.1 (Or.inr (by decide)),
   (C1_safety_interlock_edge_triggered "A" 0 180 90).2.2.1 (by decide) (by decide)⟩

/-!
### Setpoint fields and default numeric limits
-/

/-- The five operator-editable setpoint fields (ControllerGUI.py line 433). -/
inductive Field
  | speed
  | accel
  | decel
  | abs_pos
  | rel_pos
deriving DecidableEq

/-- The textual key of a field, as used in GUI element keys. -/
def fieldName : Field → String
  | .speed => "speed"
  | .accel => "accel"
  | .decel => "decel"
  | .abs_pos => "abs_pos"
  | .rel_pos => "rel_pos"

/-- NUMERIC_LIMITS: default numeric limits per field
(ControllerGUI.py lines 271-277). -/
def NUMERIC_LIMITS : Field → ℚ × ℚ
  | .speed => (-180, 180)
  | .accel => (0, 180)
  | .decel => (0, 180)
  | .abs_pos => (0, 180)
  | .rel_pos => (-90, 90)

/-!
### Jog press handling (SafetyInterlock jog pre-check)

ControllerGUI.py handle_jog_press (lines 622-681): the signed speed is the
speed field times +1 for CW and -1 for CCW; with a known current position,
a positive jog at or beyond the upper bound is blocked outright, a
negative jog at or beyond the lower bound has its magnitude capped to
min(|speed|, max_speed_limit * 0.1) with max_speed_limit = 180; the
(possibly capped) speed is then converted to pulses/second and dispatched
as a JG/BG command.
-/

/-- The jog command string JG<axis>=<pulses>;BG<axis>
(ControllerGUI.py line 669). -/
def jogCommand (axis : String) (pulsesSpeed : ℤ) : String :=
  "JG" ++ axis ++ "=" ++ toString pulsesSpeed ++ ";BG" ++ axis

/-- Outcome of a jog press. -/
inductive JogOutcome
  | noComm
  | noSpeed
  | blocked
  | sent (cmd : String)
deriving DecidableEq

/-- handle_jog_press for a press event (ControllerGUI.py lines 622-674),
with calibration present for the axis. -/
def handle_jog_press (u : AxisUnits) (axis : String) (currentPos : Option ℚ)
    (speedField : Option ℚ) (cw : Bool) (commLive : Bool) : JogOutcome :=
  if commLive = false then .noComm
  else
    match speedField with
    | none => .noSpeed
    | some sp =>
      let signedSpeed := sp * (if cw then (1 : ℚ) else -1)
      match currentPos with
      | some p =>
        if 0 < signedSpeed ∧ u.maxDeg ≤ p then .blocked
        else
          let capped :=
            if signedSpeed < 0 ∧ p ≤ u.minDeg then
              -(min |signedSpeed| ((NUMERIC_LIMITS Field.speed).2 * (1 / 10)))
            else signedSpeed
          .sent (jogCommand axis (roundHalfEven (capped * u.scaling * u.gearbox)))
      | none =>
        .sent (jogCommand axis (roundHalfEven (signedSpeed * u.scaling * u.gearbox)))

/-- C2: with a known position, a jog whose direction would increase the
position while at or beyond the upper bound is rejected outright; a jog
whose direction would decrease the position while at or beyond the lower
bound is not rejected but its magnitude is capped to 10% of the maximum
configured speed (180 * 1/10 = 18) before degree-to-pulse conversion. -/
theorem C2_jog_precheck (u : AxisUnits) (axis : String) (p sp : ℚ) (cw : Bool) :
    ((0 < (if cw then sp else -sp)) → u.maxDeg ≤ p →
      handle_jog_press u axis (some p) (some sp) cw true = JogOutcome.blocked)
  ∧ (((if cw then sp else -sp) < 0) → p ≤ u.minDeg →
      handle_jog_press u axis (some p) (some sp) cw true =
        JogOutcome.sent (jogCommand axis (roundHalfEven
          (-(min |if cw then sp else -sp| ((NUMERIC_LIMITS Field.speed).2 * (1 / 10)))
            * u.scaling * u.gearbox))))
  ∧ min |if cw then sp else -sp| ((NUMERIC_LIMITS Field.speed).2 * (1 / 10))
      ≤ 180 / 10 := by
  have hs : sp * (if cw then (1 : ℚ) else -1) = (if cw then sp else -sp) := by
    cases cw <;> simp
  refine ⟨?_, ?_, ?_⟩
  · intro h0 hM
    simp only [handle_jog_press, hs]
    simp [h0, hM]
  · intro hneg hm
    have h0 : ¬ (0 < (if cw then sp else -sp) ∧ u.maxDeg ≤ p) := by
      rintro ⟨hc, -⟩; exact absurd hc (not_lt.mpr (le_of_lt hneg))
    simp only [handle_jog_press, hs]
    simp [h0, hneg, hm]
  · have : ((NUMERIC_LIMITS Field.speed).2 * (1 / 10) : ℚ) = 180 / 10 := by
      norm_num [NUMERIC_LIMITS]
    calc min |if cw then sp else -sp| ((NUMERIC_LIMITS Field.speed).2 * (1 / 10))
        ≤ (NUMERIC_LIMITS Field.speed).2 * (1 / 10) := min_le_right _ _
      _ = 180 / 10 := this

/-- Witness for C2: axis with bounds [0,180]: CW jog at 185 deg with
speed 40 is blocked; CCW jog at -5 deg with speed 40 is sent with its
magnitude capped. -/
theorem C2_jog_precheck_witness :
    handle_jog_press ⟨0, 180, 90000, 180, 500, 4⟩ "A" (some 185) (some 40) true true
      = JogOutcome.blocked
  ∧ handle_jog_press ⟨0, 180, 90000, 180, 500, 4⟩ "A" (some (-5)) (some 40) false true
      = JogOutcome.sent (jogCommand "A" (roundHalfEven
          (-(min |if false then (40 : ℚ) else -40|
              ((NUMERIC_LIMITS Field.speed).2 * (1 / 10))) * (500 : ℚ) * 4))) :=
  ⟨(C2_jog_precheck ⟨0, 180, 90000, 180, 500, 4⟩ "A" 185 40 true).1
      (by decide) (by decide),
   (C2_jog_precheck ⟨0, 180, 90000, 180, 500, 4⟩ "A" (-5) 40 false).2.1
      (by decide) (by decide)⟩

/-!
### Consecutive-invalid-response policy (POSITION_POLL consumer)

ControllerGUI.py lines 727-803: a decodable position reply resets the
per-axis invalid-response counter to 0 and displays the decoded value; an
absent/invalid reply increments the counter; when the counter reaches 5
the display shows the explicit N/A marker, otherwise it re-shows the last
valid value.
-/

/-- What the actual-position display shows after one POSITION_POLL event. -/
inductive PosDisplay
  | shown (v : Option ℚ)
  | unavailable
deriving DecidableEq

/-- Per-axis consumer state: consecutive-invalid counter and last valid
decoded position (window._invalid_resp_counters, window._last_valid_pos). -/
structure PollConsumerState where
  counter : ℕ
  lastValid : Option ℚ
deriving DecidableEq

/-- One POSITION_POLL event as seen by the display-update logic
(ControllerGUI.py lines 733-803): the reply is some decoded value or
absent/invalid. -/
def pollConsumerStep (st : PollConsumerState) (reply : Option ℚ) :
    PollConsumerState × PosDisplay :=
  match reply with
  | some v => (⟨0, some v⟩, .shown (some v))
  | none =>
    let c := st.counter + 1
    if 5 ≤ c then (⟨c, st.lastValid⟩, .unavailable)
    else (⟨c, st.lastValid⟩, .shown st.lastValid)

/-- Fold of pollConsumerStep over a reply sequence, collecting the
display shown after each event. -/
def pollConsumerRun : PollConsumerState → List (Option ℚ) →
    PollConsumerState × List PosDisplay
  | st, [] => (st, [])
  | st, r :: rs =>
    let s := pollConsumerStep st r
    let t := pollConsumerRun s.1 rs
    (t.1, s.2 :: t.2)

/-- C3: starting from a freshly-reset counter with last valid value v,
five consecutive misses show the last valid value four times and the
unavailable marker exactly once, on the fifth; four misses followed by a
valid reply never show the marker and reset the counter to 0; any valid
reply resets the counter to 0. -/
theorem C3_consecutive_invalid_policy (v w : ℚ) :
    (pollConsumerRun ⟨0, some v⟩ [none, none, none, none, none]).2
      = [.shown (some v), .shown (some v), .shown (some v), .shown (some v),
         .unavailable]
  ∧ ((pollConsumerRun ⟨0, some v⟩ [none, none, none, none, none]).2).count
        PosDisplay.unavailable = 1
  ∧ (pollConsumerRun ⟨0, some v⟩ [none, none, none, none, some w]).2
      = [.shown (some v), .shown (some v), .shown (some v), .shown (some v),
         .shown (some w)]
  ∧ (pollConsumerRun ⟨0, some v⟩ [none, none, none, none, some w]).1
      = ⟨0, some w⟩
  ∧ (∀ st : PollConsumerState, (pollConsumerStep st (some w)).1.counter = 0) := by
  refine ⟨?_, ?_, ?_, ?_, fun st => rfl⟩
  · simp [pollConsumerRun, pollConsumerStep]
  · simp [pollConsumerRun, pollConsumerStep, List.count_cons]
  · simp [pollConsumerRun, pollConsumerStep]
  · simp [pollConsumerRun, pollConsumerStep]

/-!
### Setpoint confirm flow (SetpointController)

ControllerGUI.py handle_servo_event (lines 432-540): on a field's OK
button, the entered value is rounded to one decimal; the validation
limits are taken from the axis calibration when the condition
(axis_letter in AXIS_UNITS and field in AXIS_UNITS[axis_letter]) holds,
otherwise from NUMERIC_LIMITS; for relative position the projected
target is checked against the limits; the value itself is checked
against the limits; a confirmation prompt gates the send, and declining
it restores the previous confirmed setpoint when one exists (otherwise
the original text); on confirm the value is converted to pulses, the
command built from COMMAND_MAP, and send_command called; afterwards the
last confirmed setpoint for the (axis, field) is set to the value.
-/

/-- The always-false membership test field in AXIS_UNITS[axis_letter]
(ControllerGUI.py line 459): the setpoint field names are tested against
the keys of the calibration dictionary. -/
def fieldInAxisUnits (f : Field) : Bool := axisUnitsKeys.contains (fieldName f)

/-- The limits actually used for setpoint validation
(ControllerGUI.py lines 459-463), for an axis whose calibration is
loaded. -/
def effectiveLimits (u : AxisUnits) (f : Field) : ℚ × ℚ :=
  if fieldInAxisUnits f then (u.minDeg, u.maxDeg) else NUMERIC_LIMITS f

/-- The value-bearing command templates of GALIL_COMMAND_MAP
(ControllerGUI.py lines 174-179), applied to a pulse value. -/
def fieldCommand (axis : String) (f : Field) (pulsesValue : ℤ) : String :=
  match f with
  | .speed => "SP" ++ axis ++ "=" ++ toString pulsesValue
  | .accel => "AC" ++ axis ++ "=" ++ toString pulsesValue
  | .decel => "DC" ++ axis ++ "=" ++ toString pulsesValue
  | .abs_pos => "PA" ++ axis ++ "=" ++ toString pulsesValue
  | .rel_pos => "PR" ++ axis ++ "=" ++ toString pulsesValue

/-- Outcome of one OK-button handling pass. `dispatched cmd tok last`
means the command cmd was sent, the transport call returned tok (True on
success, False on a caught transport error), and the stored last
confirmed setpoint for the (axis, field) afterwards is last. -/
inductive SetpointOutcome
  | noValue
  | relTargetOutOfRange
  | outOfRange
  | cancelled (restoredField : Option ℚ)
  | noComm
  | dispatched (cmd : String) (transportOk : Bool) (newLastSetpoint : Option ℚ)
deriving DecidableEq

/-- handle_servo_event on a setpoint OK button
(ControllerGUI.py lines 436-540), for an axis whose calibration is
loaded.  entry is the field's parsed numeric content (none when empty),
confirm the operator's answer to the prompt, commLive whether the comm
object exists, and sendOk the boolean send_command returns. -/
def handleSetpointOk (u : AxisUnits) (axis : String) (f : Field)
    (lastValidPos prevSetpoint originalText : Option ℚ) (entry : Option ℚ)
    (confirm : Bool) (commLive : Bool) (sendOk : Bool) : SetpointOutcome :=
  match entry with
  | none => .noValue
  | some rawVal =>
    if f = .rel_pos ∧
        ((lastValidPos.getD 0 + round1 rawVal) < (effectiveLimits u f).1
          ∨ (effectiveLimits u f).2 < (lastValidPos.getD 0 + round1 rawVal)) then
      .relTargetOutOfRange
    else if round1 rawVal < (effectiveLimits u f).1
        ∨ (effectiveLimits u f).2 < round1 rawVal then
      .outOfRange
    else if confirm = false then
      .cancelled (match prevSetpoint with
                  | some pv => some pv
                  | none => originalText)
    else if commLive = false then
      .noComm
    else
      .dispatched
        (fieldCommand axis f (roundHalfEven (round1 rawVal * u.scaling * u.gearbox)))
        sendOk (some (round1 rawVal))

/-!
### Communications model (ControllerComm)
-/

/-- The three transport modes (communications.py line 176). -/
inductive Mode
  | commMode1
  | commMode2
  | commMode3
deriving DecidableEq

/-- A Python attribute holding an optional foreign handle: `unset` means
the attribute was never assigned (hasattr is false), `null` means it was
assigned None, `live` means it holds a usable handle object. -/
inductive Attr
  | unset
  | null
  | live
deriving DecidableEq

/-- Result of a Python call: normal return or a propagated exception. -/
inductive PyOutcome (α : Type)
  | ok (a : α)
  | raised (msg : String)
deriving DecidableEq

/-- State of a ControllerComm instance relevant to send/close. -/
structure CommState where
  mode : Mode
  gclib : Attr
  ser : Attr
  udpOpen : Bool
deriving DecidableEq

/-- Possible return values of ControllerComm.send_command. -/
inductive SendReturn
  | reply (s : String)
  | okTrue
  | okFalse
deriving DecidableEq

/-- ControllerComm.send_command in CommMode1 (communications.py lines
243-261): a missing gclib attribute raises RuntimeError, a None handle
raises AttributeError inside GCommand, and a transport error raises
inside GCommand; every such exception is caught by the surrounding
handler and surfaced as the return value False, so the call itself never
propagates an exception.  gcommandResult is the reply of a successful
GCommand call, none when that call raises. -/
def send_command_mode1 (gclib : Attr) (isQuery : Bool)
    (gcommandResult : Option String) : PyOutcome SendReturn :=
  match gclib with
  | .unset => .ok .okFalse
  | .null => .ok .okFalse
  | .live =>
    match gcommandResult with
    | none => .ok .okFalse
    | some r => if isQuery then .ok (.reply r) else .ok .okTrue

/-- ControllerComm._init_galil_eth (communications.py lines 188-204):
a failed import raises ImportError; otherwise the gclib handle object is
created and assigned; a missing address raises ValueError; a failed
GOpen is caught, printed and the attribute reassigned to None.  The
result is the final value of the gclib attribute. -/
def init_galil_eth (importOk addressGiven gopenOk : Bool) : PyOutcome Attr :=
  if importOk = false then .raised "ImportError"
  else if addressGiven = false then .raised "ValueError"
  else if gopenOk then .ok .live
  else .ok .null

/-- ControllerComm.close (communications.py lines 278-296). -/
def comm_close (st : CommState) : PyOutcome CommState :=
  match st.mode with
  | .commMode3 => .ok { st with udpOpen := false }
  | .commMode2 =>
    match st.ser with
    | .unset => .raised "AttributeError"
    | .null => .ok st
    | .live => .ok st
  | .commMode1 =>
    match st.gclib with
    | .unset => .ok st
    | .null => .raised "AttributeError"
    | .live => .ok st

/-- C6: the confirmed engineering-unit value is converted to pulses via
round(value * scaling * gearbox) before the command string is built; any
dispatched setpoint command embeds exactly that pulse count; with
calibration scaling 500 and gearbox 4 for axis A, confirming absolute
position 90.0 dispatches PAA=180000. -/
theorem C6_degree_to_pulse_encoding :
    (∀ (u : AxisUnits) (axis : String) (f : Field) (lv prev orig : Option ℚ)
       (v : ℚ) (conf cl ok : Bool) (cmd : String) (tok : Bool) (last : Option ℚ),
      handleSetpointOk u axis f lv prev orig (some v) conf cl ok
        = SetpointOutcome.dispatched cmd tok last →
      cmd = fieldCommand axis f (roundHalfEven (round1 v * u.scaling * u.gearbox)))
  ∧ handleSetpointOk ⟨0, 180, 90000, 180, 500, 4⟩ "A" Field.abs_pos (some 0)
      none none (some 90) true true true
      = SetpointOutcome.dispatched ("PA" ++ "A" ++ "=" ++ toString (180000 : ℤ))
          true (some 90) := by
  constructor
  · intro u axis f lv prev orig v conf cl ok cmd tok last h
    simp only [handleSetpointOk] at h
    split at h
    · simp at h
    split at h
    · simp at h
    split at h
    · simp at h
    split at h
    · simp at h
    injection h with h1 h2 h3
    exact h1.symm
  · have h90 : round1 (90 : ℚ) = 90 := by
      have := round1_intCast 90
      norm_num at this
      exact this
    have hp : roundHalfEven (180000 : ℚ) = 180000 := by
      have h : ((180000 : ℚ)) = ((180000 : ℤ) : ℚ) := by norm_num
      rw [h, roundHalfEven_intCast]
    have hfia : fieldInAxisUnits Field.abs_pos = false := by decide
    have hfe : effectiveLimits ⟨0, 180, 90000, 180, 500, 4⟩ Field.abs_pos
        = (0, 180) := by
      simp [effectiveLimits, hfia, NUMERIC_LIMITS]
    simp only [handleSetpointOk, hfe, h90]
    norm_num [hp, fieldCommand]

/-- Witness for C6: the general pulse-encoding law applied at the
concrete dispatch of absolute position 90 on axis A. -/
theorem C6_degree_to_pulse_encoding_witness :
    ("PA" ++ "A" ++ "=" ++ toString (180000 : ℤ))
      = fieldCommand "A" Field.abs_pos
          (roundHalfEven (round1 90
            * AxisUnits.scaling ⟨0, 180, 90000, 180, 500, 4⟩
            * AxisUnits.gearbox ⟨0, 180, 90000, 180, 500, 4⟩)) :=
  C6_degree_to_pulse_encoding.1 ⟨0, 180, 90000, 180, 500, 4⟩ "A" Field.abs_pos
    (some 0) none none 90 true true true _ true (some 90)
    C6_degree_to_pulse_encoding.2

/-- C4 (code bug): setpoint validation never consults the calibrated
[min,max].  The guard field in AXIS_UNITS[axis_letter] tests the field
name against the calibration keys (min, max, pulses, degrees, scaling,
gearbox) and is false for every field, so the NUMERIC_LIMITS defaults
are always used: with calibration max = 90 for axis A, the confirmed
absolute position 100 (outside the calibrated range, inside the default
(0,180)) is dispatched as PAA=200000 rather than rejected. -/
theorem C4_validation_ignores_calibrated_limits :
    (∀ f : Field, fieldInAxisUnits f = false)
  ∧ effectiveLimits ⟨0, 90, 90000, 180, 500, 4⟩ Field.abs_pos = (0, 180)
  ∧ (AxisUnits.maxDeg ⟨0, 90, 90000, 180, 500, 4⟩ : ℚ) < 100
  ∧ handleSetpointOk ⟨0, 90, 90000, 180, 500, 4⟩ "A" Field.abs_pos (some 0)
      (some 45) (some 45) (some 100) true true true
      = SetpointOutcome.dispatched ("PA" ++ "A" ++ "=" ++ toString (200000 : ℤ))
          true (some 100) := by
  have hfia : ∀ f : Field, fieldInAxisUnits f = false := by
    intro f
    cases f <;> decide
  have hfe : effectiveLimits ⟨0, 90, 90000, 180, 500, 4⟩ Field.abs_pos
      = (0, 180) := by
    simp [effectiveLimits, hfia, NUMERIC_LIMITS]
  refine ⟨hfia, hfe, by norm_num, ?_⟩
  have h100 : round1 (100 : ℚ) = 100 := by
    have := round1_intCast 100
    norm_num at this
    exact this
  have hp : roundHalfEven (200000 : ℚ) = 200000 := by
    have h : ((200000 : ℚ)) = ((200000 : ℤ) : ℚ) := by norm_num
    rw [h, roundHalfEven_intCast]
  simp only [handleSetpointOk, hfe, h100]
  norm_num [hp, fieldCommand]

/-- C5 (code bug): send_command catches every transport exception and
returns False, so it never raises; handle_servo_event treats any
non-raising send as success and stores the new value as the last
confirmed setpoint, so a failed dispatch (sendOk = false) still advances
the confirmed baseline from 45 to 90. -/
theorem C5_confirmed_baseline_advances_on_failed_send :
    (∀ (g : Attr) (q : Bool) (r : Option String),
      ∃ ret, send_command_mode1 g q r = PyOutcome.ok ret)
  ∧ send_command_mode1 Attr.null false none = PyOutcome.ok SendReturn.okFalse
  ∧ handleSetpointOk ⟨0, 180, 90000, 180, 500, 4⟩ "A" Field.abs_pos (some 0)
      (some 45) (some 45) (some 90) true true false
      = SetpointOutcome.dispatched ("PA" ++ "A" ++ "=" ++ toString (180000 : ℤ))
          false (some 90) := by
  refine ⟨?_, rfl, ?_⟩
  · intro g q r
    cases g <;> cases r <;> cases q <;> exact ⟨_, rfl⟩
  · have h90 : round1 (90 : ℚ) = 90 := by
      have := round1_intCast 90
      norm_num at this
      exact this
    have hp : roundHalfEven (180000 : ℚ) = 180000 := by
      have h : ((180000 : ℚ)) = ((180000 : ℤ) : ℚ) := by norm_num
      rw [h, roundHalfEven_intCast]
    have hfia : fieldInAxisUnits Field.abs_pos = false := by decide
    have hfe : effectiveLimits ⟨0, 180, 90000, 180, 500, 4⟩ Field.abs_pos
        = (0, 180) := by
      simp [effectiveLimits, hfia, NUMERIC_LIMITS]
    simp only [handleSetpointOk, hfe, h90]
    norm_num [hp, fieldCommand]

/-- C9 (code bug): after a failed Galil-Ethernet connection the gclib
attribute is reassigned to None, so hasattr is still true and close()
calls GClose on None, raising AttributeError; only the never-assigned
case is a safe no-op. -/
theorem C9_close_raises_after_failed_eth_init :
    init_galil_eth true true false = PyOutcome.ok Attr.null
  ∧ comm_close ⟨Mode.commMode1, Attr.null, Attr.unset, false⟩
      = PyOutcome.raised "AttributeError"
  ∧ comm_close ⟨Mode.commMode1, Attr.unset, Attr.unset, false⟩
      = PyOutcome.ok ⟨Mode.commMode1, Attr.unset, Attr.unset, false⟩ := by
  refine ⟨by decide, rfl, rfl⟩

/-!
### ResponseParser (polling-thread numeric extraction)

ControllerPolling.py polling_thread_func (lines 54-79): the raw reply is
stripped, split into lines, each line stripped, and the first line fully
matching the signed decimal-with-fraction pattern is taken.
-/

/-- Whitespace characters removed by Python strip(). -/
def isWS (c : Char) : Bool :=
  c = ' ' || c = '\t' || c = '\n' || c = '\r' || c = '\x0b' || c = '\x0c'

/-- str.strip(): remove leading and trailing whitespace. -/
def stripChars (l : List Char) : List Char :=
  ((l.dropWhile isWS).reverse.dropWhile isWS).reverse

/-- Worker for splitLines. -/
def splitLinesGo : List Char → List Char → List (List Char)
  | [], acc => [acc.reverse]
  | '\n' :: [], acc => [acc.reverse]
  | '\n' :: c :: rest, acc => acc.reverse :: splitLinesGo (c :: rest) []
  | c :: rest, acc => splitLinesGo rest (c :: acc)

/-- str.splitlines() on newline separators: the empty string yields no
lines and a trailing newline produces no trailing empty line. -/
def splitLines (l : List Char) : List (List Char) :=
  match l with
  | [] => []
  | _ => splitLinesGo l []

/-- Decimal digit test. -/
def isDigitCh (c : Char) : Bool := '0' ≤ c && c ≤ '9'

/-- Drop one leading minus sign. -/
def dropSign : List Char → List Char
  | '-' :: rest => rest
  | l => l

/-- Full match of an unsigned decimal-with-fraction: one or more integer
digits (at most maxIntDigits when given), a dot, one or more fraction
digits, end of line. -/
def matchesUnsignedNumeric (maxIntDigits : Option ℕ) (l : List Char) : Bool :=
  decide (1 ≤ (l.takeWhile isDigitCh).length)
    && (match maxIntDigits with
        | some k => decide ((l.takeWhile isDigitCh).length ≤ k)
        | none => true)
    && (match l.dropWhile isDigitCh with
        | '.' :: fs => decide (1 ≤ fs.length) && fs.all isDigitCh
        | _ => false)

/-- re.fullmatch of the pattern used for position, torque and speed
replies (ControllerPolling.py line 59): -?\d{1,7}\.\d+$ . -/
def matchesPosNumeric (l : List Char) : Bool :=
  matchesUnsignedNumeric (some 7) (dropSign l)

/-- re.fullmatch of the pattern used for status replies
(ControllerPolling.py line 112): -?\d+\.\d+ . -/
def matchesStatusNumeric (l : List Char) : Bool :=
  matchesUnsignedNumeric none (dropSign l)

/-- Line pipeline of the reply scanner: strip the whole reply, split
into lines, strip each line. -/
def processedLines (raw : String) : List (List Char) :=
  (splitLines (stripChars raw.toList)).map stripChars

/-- First processed line fully matching the pattern. -/
def extractFirst (pat : List Char → Bool) (raw : String) : Option String :=
  ((processedLines raw).find? pat).map (fun l => String.mk l)

/-- ResponseParser.extractNumeric: the numeric-token extraction applied
to position replies. -/
def extractNumeric (raw : String) : Option String :=
  extractFirst matchesPosNumeric raw

/-- A successful find? splits the list at the first satisfying element. -/
theorem find?_eq_some_split {α : Type} (p : α → Bool) :
    ∀ (l : List α) (a : α), l.find? p = some a →
      ∃ pre post, l = pre ++ a :: post ∧ p a = true ∧ ∀ x ∈ pre, p x = false := by
  intro l
  induction l with
  | nil => intro a h; simp [List.find?] at h
  | cons x xs ih =>
    intro a h
    cases hx : p x with
    | true =>
      rw [List.find?_cons_of_pos _ hx] at h
      obtain rfl : x = a := by injection h
      exact ⟨[], xs, rfl, hx, by simp⟩
    | false =>
      rw [List.find?_cons_of_neg _ (by simp [hx])] at h
      obtain ⟨pre, post, heq, hpa, hpre⟩ := ih a h
      refine ⟨x :: pre, post, by simp [heq], hpa, ?_⟩
      intro y hy
      rcases List.mem_cons.mp hy with rfl | hy
      · exact hx
      · exact hpre y hy

/-- C7: numeric extraction returns nothing for the empty string and for
a lone acknowledgement separator; any extracted token is the first
processed line matching the signed decimal-with-fraction pattern; a
multi-line reply with leading non-numeric noise yields the first valid
decimal token. -/
theorem C7_extract_numeric_contract (raw s : String) :
    extractNumeric "" = none
  ∧ extractNumeric ":" = none
  ∧ (extractNumeric raw = some s →
      ∃ pre post, processedLines raw = pre ++ s.toList :: post
        ∧ matchesPosNumeric s.toList = true
        ∧ ∀ l ∈ pre, matchesPosNumeric l = false)
  ∧ extractNumeric "garbage\n:\n-3.25\n7.0" = some "-3.25" := by
  refine ⟨by decide, by decide, ?_, by decide⟩
  intro h
  unfold extractNumeric extractFirst at h
  obtain ⟨l, hf, hs⟩ := Option.map_eq_some'.mp h
  subst hs
  exact find?_eq_some_split matchesPosNumeric (processedLines raw) l hf

/-- Witness for C7: the first-match decomposition applied to the
concrete multi-line reply with leading noise. -/
theorem C7_extract_numeric_contract_witness :
    ∃ pre post,
      processedLines "garbage\n:\n-3.25\n7.0"
        = pre ++ (String.toList "-3.25") :: post
      ∧ matchesPosNumeric (String.toList "-3.25") = true
      ∧ ∀ l ∈ pre, matchesPosNumeric l = false :=
  (C7_extract_numeric_contract "garbage\n:\n-3.25\n7.0" "-3.25").2.2.1 (by decide)

/-!
### PollingEngine telemetry cycle

ControllerPolling.py polling_thread_func (lines 49-173): for each of the
four telemetry fields the synchronous reply is scanned; when no token is
found, the receive queue is scanned for a bounded number of attempts
(5 for position, 3 for the others); the cycle posts one POSITION_POLL
event only when at least one field produced a token.
-/

/-- The bounded receive-retry scan: each attempt consumes the next
receive result (none = timeout, scanned as the empty string). -/
def retryScan (pat : List Char → Bool) : ℕ → List (Option String) → Option String
  | 0, _ => none
  | n + 1, rs =>
    match extractFirst pat ((rs.headD none).getD "") with
    | some v => some v
    | none => retryScan pat n rs.tail

/-- One telemetry field of a polling cycle: scan the synchronous reply
when it was a string, then fall back to the receive-retry scan. -/
def fieldResult (pat : List Char → Bool) (budget : ℕ)
    (direct : Option String) (queued : List (Option String)) : Option String :=
  match direct with
  | some d =>
    match extractFirst pat d with
    | some v => some v
    | none => retryScan pat budget queued
  | none => retryScan pat budget queued

/-- raw_resp for the position field (ControllerPolling.py lines 54-75):
the stripped synchronous reply when it was a string, overwritten by the
matched line when the token came from the retry scan. -/
def rawResult (posDirect : Option String) (posQ : List (Option String)) :
    Option String :=
  match posDirect with
  | some d =>
    match extractFirst matchesPosNumeric d with
    | some _ => some (String.mk (stripChars d.toList))
    | none =>
      match retryScan matchesPosNumeric 5 posQ with
      | some line => some line
      | none => some (String.mk (stripChars d.toList))
  | none => retryScan matchesPosNumeric 5 posQ

/-- The POSITION_POLL event payload (ControllerPolling.py lines 162-173). -/
structure TelemetryEvent where
  servo : ℕ
  axis : String
  pos_resp : Option String
  raw_resp : Option String
  torque_resp : Option String
  status_resp : Option String
  speed_resp : Option String
deriving DecidableEq

/-- One polling cycle's event emission (ControllerPolling.py lines
49-173): the four fields are acquired with their retry budgets and the
event is posted only when at least one field has a token. -/
def pollCycleEvent (servo : ℕ) (axis : String)
    (posDirect : Option String) (posQ : List (Option String))
    (torqueDirect : Option String) (torqueQ : List (Option String))
    (statusDirect : Option String) (statusQ : List (Option String))
    (speedDirect : Option String) (speedQ : List (Option String)) :
    Option TelemetryEvent :=
  if (fieldResult matchesPosNumeric 5 posDirect posQ).isSome
      || (fieldResult matchesPosNumeric 3 torqueDirect torqueQ).isSome
      || (fieldResult matchesStatusNumeric 3 statusDirect statusQ).isSome
      || (fieldResult matchesPosNumeric 3 speedDirect speedQ).isSome then
    some ⟨servo, axis,
          fieldResult matchesPosNumeric 5 posDirect posQ,
          rawResult posDirect posQ,
          fieldResult matchesPosNumeric 3 torqueDirect torqueQ,
          fieldResult matchesStatusNumeric 3 statusDirect statusQ,
          fieldResult matchesPosNumeric 3 speedDirect speedQ⟩
  else none

/-- C8 counterexample: a cycle in which all four fields are absent (four
acknowledgement-only synchronous replies, empty receive queues) emits no
telemetry event at all, contradicting the claim that one event is
emitted on every cycle including the all-absent one. -/
theorem C8_all_absent_cycle_emits_no_event :
    pollCycleEvent 1 "A" (some ":") [] (some ":") [] (some ":") [] (some ":") []
      = none := by decide

/-- C8 as amended: a cycle emits no event exactly when all four fields
are absent; whenever at least one field has a token, exactly one event
is emitted and it reports each token-less field as absent (none), never
as an error. -/
theorem C8_telemetry_emission (servo : ℕ) (axis : String)
    (pd td sd vd : Option String) (pq tq sq vq : List (Option String)) :
    (pollCycleEvent servo axis pd pq td tq sd sq vd vq = none
      ↔ fieldResult matchesPosNumeric 5 pd pq = none
        ∧ fieldResult matchesPosNumeric 3 td tq = none
        ∧ fieldResult matchesStatusNumeric 3 sd sq = none
        ∧ fieldResult matchesPosNumeric 3 vd vq = none)
  ∧ (∀ e, pollCycleEvent servo axis pd pq td tq sd sq vd vq = some e →
      e = ⟨servo, axis,
           fieldResult matchesPosNumeric 5 pd pq,
           rawResult pd pq,
           fieldResult matchesPosNumeric 3 td tq,
           fieldResult matchesStatusNumeric 3 sd sq,
           fieldResult matchesPosNumeric 3 vd vq⟩) := by
  unfold pollCycleEvent
  split
  · rename_i hcond
    constructor
    · constructor
      · intro h; simp at h
      · rintro ⟨h1, h2, h3, h4⟩
        rw [h1, h2, h3, h4] at hcond
        simp at hcond
    · intro e he
      injection he with he
      exact he.symm
  · rename_i hcond
    simp only [Bool.or_eq_true, not_or, Bool.not_eq_true] at hcond
    obtain ⟨⟨⟨h1, h2⟩, h3⟩, h4⟩ := hcond
    refine ⟨⟨fun _ => ⟨?_, ?_, ?_, ?_⟩, fun _ => rfl⟩, fun e he => by simp at he⟩
    · cases hc : fieldResult matchesPosNumeric 5 pd pq
      · rfl
      · rw [hc] at h1; simp at h1
    · cases hc : fieldResult matchesPosNumeric 3 td tq
      · rfl
      · rw [hc] at h2; simp at h2
    · cases hc : fieldResult matchesStatusNumeric 3 sd sq
      · rfl
      · rw [hc] at h3; simp at h3
    · cases hc : fieldResult matchesPosNumeric 3 vd vq
      · rfl
      · rw [hc] at h4; simp at h4

/-- Witness for C8: a cycle whose position reply carries the token 12.5
and whose other fields are silent emits exactly the event reporting the
three token-less fields as absent. -/
theorem C8_telemetry_emission_witness :
    (⟨1, "A", some "12.5", some "12.5", none, none, none⟩ : TelemetryEvent)
      = ⟨1, "A",
         fieldResult matchesPosNumeric 5 (some "12.5") [],
         rawResult (some "12.5") [],
         fieldResult matchesPosNumeric 3 none [],
         fieldResult matchesStatusNumeric 3 none [],
         fieldResult matchesPosNumeric 3 none []⟩ :=
  (C8_telemetry_emission 1 "A" (some "12.5") none none none [] [] [] []).2
    ⟨1, "A", some "12.5", some "12.5", none, none, none⟩ (by decide)

/-!
### Direct motor-control buttons (handle_servo_event)
-/

/-- The fixed (non-callable) entries of GALIL_COMMAND_MAP
(ControllerGUI.py lines 170-173). -/
def commandMapFixed (servo : ℕ) (action : String) : Option String :=
  if action = "enable" then some ("SH" ++ axisLetter servo)
  else if action = "disable" then some ("MO" ++ axisLetter servo)
  else if action = "start" then some ("BG" ++ axisLetter servo)
  else if action = "stop" then some ("ST" ++ axisLetter servo)
  else none

/-- handle_servo_event direct-button path (ControllerGUI.py lines
581-619): the commands sent to the transport, in order; when disabling
with a live transport, the stop command for the same axis is sent
immediately before the disable command. -/
def handleDirectButton (servo : ℕ) (action : String) (commLive : Bool) :
    List String :=
  match commandMapFixed servo action with
  | none => []
  | some cmd =>
    if commLive then
      (if action = "disable" then
        match commandMapFixed servo "stop" with
        | some stopCmd => [stopCmd]
        | none => []
      else []) ++ [cmd]
    else []

/-- C10: for every servo, the disable button with a live transport sends
exactly the stop command ST followed immediately by the disable command
MO for that axis. -/
theorem C10_disable_sends_stop_first (i : Fin 8) :
    handleDirectButton (i.1 + 1) "disable" true
      = ["ST" ++ axisLetter (i.1 + 1), "MO" ++ axisLetter (i.1 + 1)] := by
  fin_cases i <;> decide

end ControllerGUI
